import Mathlib

/-!
Verification of the analytics core of the Crime-Data-Dashboard repository
(`backend.py` and the Future-Prediction logic of `app.py`).

Modelling conventions:
* a pandas DataFrame row is a `Row` with the fixed column schema that the
  dashboard uses (`STATE/UT`, `DISTRICT`, `YEAR`, the nine named crime
  category columns of `get_top_crime_composition`, and `TOTAL IPC CRIMES`);
  a `Dataset` is the ordered list of rows of the frame;
* crime counts are modelled as `ℤ` (the `astype(int)` result of the loader);
  the data-model invariant that counts are non-negative appears as an
  explicit hypothesis where a theorem needs it;
* real-valued arithmetic (`safety ratio`, the least-squares fit of
  `LinearRegression`) is modelled exactly over `ℚ`;
* `pandas.Series.sort_values(ascending=False)` is modelled as a stable
  descending sort: pandas reverses the input, takes a stable ascending
  argsort and reverses the resulting indexer, which preserves the original
  (declaration) order among tied values; the underlying numpy quicksort is
  a plain insertion sort (hence stable) for the at-most-nine-element series
  sorted here;
* fallible operations return `Except`.
-/

/-- One row of the cleaned crime table, with the fixed column schema used by
the dashboard (`backend.py` normalises the header to upper case). -/
structure Row where
  stateUT : String
  district : String
  year : ℤ
  murder : ℤ
  rape : ℤ
  kidnapping : ℤ
  theft : ℤ
  burglary : ℤ
  dowryDeaths : ℤ
  assaultOnWomen : ℤ
  crueltyByHusband : ℤ
  arson : ℤ
  totalIpcCrimes : ℤ
deriving DecidableEq

/-- A dataset is the ordered sequence of rows of the DataFrame. -/
abbrev Dataset := List Row

/-- One raw CSV row before cleaning: the state and district cells as read
from the file, and each crime-count cell either parsed numeric (`some`) or
non-numeric/missing (`none`, which `pd.to_numeric(errors := coerce)`
turns into NaN and `fillna(0)` into 0). -/
structure RawRow where
  stateUT : String
  district : String
  year : ℤ
  murder : Option ℤ
  rape : Option ℤ
  kidnapping : Option ℤ
  theft : Option ℤ
  burglary : Option ℤ
  dowryDeaths : Option ℤ
  assaultOnWomen : Option ℤ
  crueltyByHusband : Option ℤ
  arson : Option ℤ
  totalIpcCrimes : Option ℤ
deriving DecidableEq

/-- backend.py lines 34-42: the allow-list of the 35 known States/UTs. -/
def known_states_uts : List String :=
  ["ANDAMAN & NICOBAR ISLANDS", "ANDHRA PRADESH", "ARUNACHAL PRADESH",
   "ASSAM", "BIHAR", "CHANDIGARH", "CHHATTISGARH", "DADRA & NAGAR HAVELI",
   "DAMAN & DIU", "DELHI", "GOA", "GUJARAT", "HARYANA", "HIMACHAL PRADESH",
   "JAMMU & KASHMIR", "JHARKHAND", "KARNATAKA", "KERALA", "LAKSHADWEEP",
   "MADHYA PRADESH", "MAHARASHTRA", "MANIPUR", "MEGHALAYA", "MIZORAM",
   "NAGALAND", "ODISHA", "PUDUCHERRY", "PUNJAB", "RAJASTHAN", "SIKKIM",
   "TAMIL NADU", "TRIPURA", "UTTAR PRADESH", "UTTARAKHAND", "WEST BENGAL"]

/-- `str.strip().str.upper()` applied to a key field (backend.py 29/31):
drop whitespace from both ends, then upper-case every character.  Written
over the character list of the string so that it evaluates by `decide`. -/
def normalizeField (s : String) : String :=
  String.mk
    (((s.data.dropWhile Char.isWhitespace).reverse.dropWhile
        Char.isWhitespace).reverse.map Char.toUpper)

/-- `pd.to_numeric(col, errors := coerce).fillna(0)` on one cell. -/
def coerceCount (c : Option ℤ) : ℤ := c.getD 0

/-- The cleaning applied to one raw row: normalise the key fields and
zero-fill the numeric cells (backend.py lines 23-31 and 50-53). -/
def cleanRow (r : RawRow) : Row :=
  { stateUT := normalizeField r.stateUT
    district := normalizeField r.district
    year := r.year
    murder := coerceCount r.murder
    rape := coerceCount r.rape
    kidnapping := coerceCount r.kidnapping
    theft := coerceCount r.theft
    burglary := coerceCount r.burglary
    dowryDeaths := coerceCount r.dowryDeaths
    assaultOnWomen := coerceCount r.assaultOnWomen
    crueltyByHusband := coerceCount r.crueltyByHusband
    arson := coerceCount r.arson
    totalIpcCrimes := coerceCount r.totalIpcCrimes }

/-- backend.py lines 23-53: normalisation, the allow-list restriction on
`STATE/UT` (line 44), and the drop of `TOTAL` districts (line 48).  In the
fixed schema the `in data.columns` guards of the source hold always; the
numeric zero-fill of lines 50-53 touches no key field, so performing it
inside `cleanRow` before the two filters yields the same rows. -/
def clean_data (raw : List RawRow) : List Row :=
  ((raw.map cleanRow).filter
      (fun r => known_states_uts.contains r.stateUT)).filter
    (fun r => r.district != "TOTAL")

/-- Exceptions that the Python loader can raise. -/
inductive PyError where
  | nameError
  | fileNotFound
deriving DecidableEq

/-- backend.py line 17 evaluates `os.path.dirname(_file_)`; the identifier
`_file_` is bound nowhere in the module (the double-underscore `__file__`
was intended), so evaluating it raises `NameError`. -/
def dirnameOfFile : Except PyError String := .error .nameError

/-- `pd.read_csv` on the data path: the file is either absent
(`FileNotFoundError`) or holds the raw rows. -/
def read_csv (src : Option (List RawRow)) (_path : String) :
    Except PyError (List RawRow) :=
  match src with
  | none => .error .fileNotFound
  | some rows => .ok rows

/-- backend.py lines 11-55, `load_data`: the `try` block evaluates the data
path and reads the CSV; the `except` clause catches only
`FileNotFoundError` (returning an empty DataFrame); every other exception
propagates to the caller; on success the cleaning of lines 23-53 runs. -/
def load_data (src : Option (List RawRow)) : Except PyError Dataset :=
  match (do
      let p ← dirnameOfFile
      read_csv src p : Except PyError (List RawRow)) with
  | .error .fileNotFound => .ok []
  | .error e => .error e
  | .ok rows => .ok (clean_data rows)

/-- backend.py lines 6-9: the seeded credential dictionary, as the ordered
association list of its insertions. -/
def USER_CREDENTIALS : List (String × String) :=
  [("judge", "hackathon2024"), ("user1", "pass123")]

/-- backend.py lines 59-61: `USER_CREDENTIALS.get(username) == password`
(a missing key yields `None`, which equals no password string). -/
def authenticate_user (username password : String)
    (creds : List (String × String)) : Bool :=
  match creds.lookup username with
  | some pw => pw == password
  | none => false

/-- backend.py lines 63-65: `username in USER_CREDENTIALS`. -/
def is_username_registered (username : String)
    (creds : List (String × String)) : Bool :=
  (creds.lookup username).isSome

/-- The registration failures of `register_user`. -/
inductive RegError where
  | emptyField
  | duplicateUsername
deriving DecidableEq

/-- backend.py lines 67-75, `register_user`: reject a blank username or
password (`not username or not password`), reject an existing username,
otherwise insert the pair; the updated dictionary is returned alongside
the outcome. -/
def register_user (username password : String)
    (creds : List (String × String)) :
    Except RegError Unit × List (String × String) :=
  if username = "" ∨ password = "" then (.error .emptyField, creds)
  else if (creds.lookup username).isSome then
    (.error .duplicateUsername, creds)
  else (.ok (), creds ++ [(username, password)])

/-- backend.py lines 92-108, `filter_state_district`: an empty frame short
circuits; then the year filter runs when `year is not None`, the state
filter when `state is not None`, and the district filter when `district`
is truthy (so a `None` or empty-string district is skipped). -/
def filter_state_district (data : Dataset) (state : Option String)
    (district : Option String) (year : Option ℤ) : Dataset :=
  if data = [] then []
  else
    let d1 := match year with
      | some y => data.filter (fun r => r.year == y)
      | none => data
    let d2 := match state with
      | some s => d1.filter (fun r => r.stateUT == s)
      | none => d1
    match district with
    | some dd => if dd = "" then d2 else d2.filter (fun r => r.district == dd)
    | none => d2

/-- Sum of `TOTAL IPC CRIMES` over the rows matching a state
(backend.py line 115). -/
def regionTotal (data : Dataset) (state : String) : ℤ :=
  ((data.filter (fun r => r.stateUT == state)).map Row.totalIpcCrimes).sum

/-- Sum of `TOTAL IPC CRIMES` over the whole dataset (backend.py 116). -/
def grandTotal (data : Dataset) : ℤ :=
  (data.map Row.totalIpcCrimes).sum

/-- backend.py lines 110-121, `calculate_safety_ratio`: an empty frame (the
`TOTAL IPC CRIMES` column exists always in the fixed schema) yields 0.0, a
zero grand total yields 100.0, otherwise `(1 - state/total) * 100`. -/
def calculate_safety_ratio (data : Dataset) (selected_state : String) : ℚ :=
  if data = [] then 0
  else if grandTotal data = 0 then 100
  else (1 - (regionTotal data selected_state : ℚ) / (grandTotal data : ℚ)) * 100

/-- The rows of the dataset matching a state
(`data[data["STATE/UT"] == state]`). -/
def stateRows (data : Dataset) (state : String) : Dataset :=
  data.filter (fun r => r.stateUT == state)

/-- backend.py lines 128-133: the fixed crime-category columns of
`get_top_crime_composition`, in declaration order, each paired with its
column projection. -/
def crimeCats : List (String × (Row → ℤ)) :=
  [("MURDER", Row.murder),
   ("RAPE", Row.rape),
   ("KIDNAPPING & ABDUCTION", Row.kidnapping),
   ("THEFT", Row.theft),
   ("BURGLARY", Row.burglary),
   ("DOWRY DEATHS", Row.dowryDeaths),
   ("ASSAULT ON WOMEN WITH INTENT TO OUTRAGE HER MODESTY", Row.assaultOnWomen),
   ("CRUELTY BY HUSBAND OR HIS RELATIVES", Row.crueltyByHusband),
   ("ARSON", Row.arson)]

/-- The category column names in declaration order. -/
def catNames : List String := crimeCats.map Prod.fst

/-- Position of a category name in the fixed declaration order. -/
def declIdx (name : String) : ℕ := catNames.indexOf name

/-- `state_data[crime_cols].sum()`: the per-category sums over a set of
rows, one entry per category in declaration order (backend.py line 145). -/
def categorySums (rows : Dataset) : List (String × ℤ) :=
  crimeCats.map (fun c => (c.1, (rows.map c.2).sum))

/-- `crime_sums[crime_sums > 0]` (backend.py line 146). -/
def positiveSums (rows : Dataset) : List (String × ℤ) :=
  (categorySums rows).filter (fun p => decide (0 < p.2))

/-- One insertion step of the stable descending sort: the inserted entry
precedes every existing entry whose value does not exceed it, so an entry
tied with a later one keeps its earlier place. -/
def insertDesc (x : String × ℤ) : List (String × ℤ) → List (String × ℤ)
  | [] => [x]
  | y :: ys => if x.2 < y.2 then y :: insertDesc x ys else x :: y :: ys

/-- `Series.sort_values(ascending=False)` on the at-most-nine-entry series
of positive category sums: a stable descending sort (see the header note
on the pandas/numpy sorting behaviour being modelled). -/
def sortDesc : List (String × ℤ) → List (String × ℤ)
  | [] => []
  | x :: xs => insertDesc x (sortDesc xs)

/-- backend.py lines 123-158, `get_top_crime_composition`: all nine category
columns exist in the fixed schema (so `crime_cols` is never empty); a state
with no rows yields an empty Series; with rows but no positive category sum
the sentinel single entry is returned; otherwise the positive sums are
sorted descending, the first `top_n` kept, and the remainder folded into an
`OTHER IPC CRIMES` entry appended when its sum is positive. -/
def get_top_crime_composition (data : Dataset) (state : String)
    (top_n : ℕ) : List (String × ℤ) :=
  let rows := stateRows data state
  if rows = [] then []
  else
    let sums := sortDesc (positiveSums rows)
    if sums = [] then [("NO MAJOR CRIMES REPORTED", 1)]
    else
      let top := sums.take top_n
      let other_sum := ((sums.drop top_n).map Prod.snd).sum
      if 0 < other_sum then top ++ [("OTHER IPC CRIMES", other_sum)]
      else top

/-- The composition entries other than the OTHER bucket. -/
def compMain (data : Dataset) (state : String) (top_n : ℕ) :
    List (String × ℤ) :=
  (get_top_crime_composition data state top_n).filter
    (fun p => p.1 != "OTHER IPC CRIMES")

/-- Sum of all positive category sums of a state, i.e. the grand category
total that the composition distributes. -/
def totalPositive (data : Dataset) (state : String) : ℤ :=
  ((positiveSums (stateRows data state)).map Prod.snd).sum

/-- The descending-with-declaration-order-ties ordering that the spec claims
for composition entries: strictly more frequent first, ties resolved by the
fixed category declaration order. -/
def claimOrder (a b : String × ℤ) : Prop :=
  b.2 < a.2 ∨ (a.2 = b.2 ∧ declIdx a.1 < declIdx b.1)

instance : DecidableRel claimOrder := fun a b => by
  unfold claimOrder; infer_instance

/-- The distinct years of a state's rows, in first-appearance order
(the group keys of `groupby("YEAR")`). -/
def distinctYears (data : Dataset) (state : String) : List ℤ :=
  ((stateRows data state).map Row.year).dedup

/-- Ascending insertion sort on years. -/
def insertAscZ (x : ℤ) : List ℤ → List ℤ
  | [] => [x]
  | y :: ys => if x ≤ y then x :: y :: ys else y :: insertAscZ x ys

/-- Ascending sort on years (`groupby` sorts its keys). -/
def sortAscZ : List ℤ → List ℤ
  | [] => []
  | x :: xs => insertAscZ x (sortAscZ xs)

/-- Sum of `TOTAL IPC CRIMES` of a state's rows for one year. -/
def yearTotal (data : Dataset) (state : String) (y : ℤ) : ℤ :=
  (((stateRows data state).filter (fun r => r.year == y)).map
    Row.totalIpcCrimes).sum

/-- app.py line 442: `state_data.groupby("YEAR")["TOTAL IPC CRIMES"].sum()`,
the historical series of (year, total) pairs sorted ascending by year. -/
def yearly_data (data : Dataset) (state : String) : List (ℤ × ℤ) :=
  (sortAscZ (distinctYears data state)).map
    (fun y => (y, yearTotal data state y))

/-- Ordinary least squares fit of `y = slope * x + intercept` over a list
of points, by the closed form over the centred moments; this is what
`LinearRegression.fit` computes for one feature, modelled exactly in `ℚ`.
Returns `(slope, intercept)`. -/
def fitLine (pts : List (ℤ × ℤ)) : ℚ × ℚ :=
  let n : ℚ := pts.length
  let xbar : ℚ := (pts.map (fun p => (p.1 : ℚ))).sum / n
  let ybar : ℚ := (pts.map (fun p => (p.2 : ℚ))).sum / n
  let sxx : ℚ := (pts.map (fun p => ((p.1 : ℚ) - xbar) ^ 2)).sum
  let sxy : ℚ :=
    (pts.map (fun p => ((p.1 : ℚ) - xbar) * ((p.2 : ℚ) - ybar))).sum
  let slope := sxy / sxx
  (slope, ybar - slope * xbar)

/-- `np.astype(int)` on one value: truncation toward zero. -/
def ratTrunc (q : ℚ) : ℤ := if 0 ≤ q then ⌊q⌋ else ⌈q⌉

/-- The last observed year of the historical series
(`X.flatten()[-1]`, app.py line 453). -/
def lastObservedYear (data : Dataset) (state : String) : ℤ :=
  (((yearly_data data state).map Prod.fst).getLast?).getD 0

/-- The fitted regression line of a state's historical series, evaluated at
a year (`model.predict`). -/
def lineAt (data : Dataset) (state : String) (yr : ℤ) : ℚ :=
  (fitLine (yearly_data data state)).2 +
    (fitLine (yearly_data data state)).1 * (yr : ℚ)

/-- The failure signal of the prediction page. -/
inductive PredError where
  | insufficientHistory
deriving DecidableEq

/-- app.py lines 440-460, the Future-Prediction computation: group the
state's rows by year; with fewer than two grouped years report the
insufficient-history error (line 444); otherwise fit the regression and
predict for the `horizon` consecutive years after the last observed one
(`np.arange(last_year + 1, last_year + 1 + horizon)`; the page uses
`horizon = 5`), truncating each prediction to an integer. -/
def predict_future (data : Dataset) (state : String) (horizon : ℕ) :
    Except PredError (List (ℤ × ℤ)) :=
  if (yearly_data data state).length < 2 then .error .insufficientHistory
  else
    .ok ((List.range horizon).map (fun i =>
      (lastObservedYear data state + 1 + (i : ℤ),
       ratTrunc (lineAt data state (lastObservedYear data state + 1 + (i : ℤ))))))

/-- The AND-of-exact-matches filtering that the spec describes for
`filterRows`, stated from the spec's words for comparison with
`filter_state_district`: each provided filter is an independent exact-match
predicate, an omitted filter passes all rows. -/
def specFilterRows (data : Dataset) (state : Option String)
    (district : Option String) (year : Option ℤ) : Dataset :=
  data.filter (fun r =>
    (match year with | some y => r.year == y | none => true) &&
    (match state with | some s => r.stateUT == s | none => true) &&
    (match district with | some dd => r.district == dd | none => true))

/-- A row with every crime-category count zero except a given grand total,
used as concrete test data. -/
def simpleRow (st : String) (yr total : ℤ) : Row :=
  ⟨st, "D", yr, 0, 0, 0, 0, 0, 0, 0, 0, 0, total⟩

/-- Concrete linear history: region "X", 2010 → 100, 2011 → 200,
2012 → 300 (the worked example of the spec). -/
def linHist : Dataset :=
  [simpleRow "X" 2010 100, simpleRow "X" 2011 200, simpleRow "X" 2012 300]

/-- Concrete decreasing history: region "X", 2010 → 100, 2011 → 0; the
fitted line predicts negative totals for every later year. -/
def decHist : Dataset :=
  [simpleRow "X" 2010 100, simpleRow "X" 2011 0]

/-- A row for region "X" with MURDER 10, THEFT 50, ARSON 5 (the
composition example of the spec). -/
def compRow : Row :=
  ⟨"X", "D", 2013, 10, 0, 0, 50, 0, 0, 0, 0, 5, 65⟩

/-- A row whose district is "A", for the district-filter counterexample. -/
def rowA : Row :=
  ⟨"S", "A", 2013, 0, 0, 0, 0, 0, 0, 0, 0, 0, 1⟩

/-- A raw CSV row for Delhi with mixed-case fields. -/
def rawDelhi : RawRow :=
  ⟨" Delhi ", "North", 2013, some 1, some 2, some 3, some 4, some 5,
   none, some 6, some 7, some 8, some 36⟩

/-! ## Helper lemmas -/

theorem ratTrunc_spec (q : ℚ) :
    |((ratTrunc q : ℤ) : ℚ) - q| < 1 ∧ (ratTrunc q < 0 ↔ q ≤ -1) := by
  rcases le_or_lt 0 q with hq | hq
  · rw [ratTrunc, if_pos hq]
    constructor
    · rw [abs_lt]
      constructor
      · linarith [Int.sub_one_lt_floor q]
      · linarith [Int.floor_le q]
    · have h0 : 0 ≤ ⌊q⌋ := Int.floor_nonneg.2 hq
      constructor
      · intro hlt; omega
      · intro hle; linarith
  · rw [ratTrunc, if_neg (not_le.2 hq)]
    constructor
    · rw [abs_lt]
      constructor
      · linarith [Int.le_ceil q]
      · linarith [Int.ceil_lt_add_one q]
    · constructor
      · intro hlt
        have : ⌈q⌉ ≤ -1 := by omega
        have := Int.ceil_le.1 this
        exact_mod_cast this
      · intro hle
        have : ⌈q⌉ ≤ -1 := Int.ceil_le.2 (by exact_mod_cast hle)
        omega

theorem insertAscZ_length (x : ℤ) (l : List ℤ) :
    (insertAscZ x l).length = l.length + 1 := by
  induction l with
  | nil => rfl
  | cons y ys ih => rw [insertAscZ]; split <;> simp [ih]

theorem sortAscZ_length (l : List ℤ) : (sortAscZ l).length = l.length := by
  induction l with
  | nil => rfl
  | cons x xs ih => rw [sortAscZ, insertAscZ_length, ih, List.length_cons]

theorem yearly_data_length (d : Dataset) (s : String) :
    (yearly_data d s).length = (distinctYears d s).length := by
  rw [yearly_data, List.length_map, sortAscZ_length]

theorem insertDesc_ne_nil (x : String × ℤ) (l : List (String × ℤ)) :
    insertDesc x l ≠ [] := by
  cases l with
  | nil => simp [insertDesc]
  | cons y ys => rw [insertDesc]; split <;> simp

theorem sortDesc_eq_nil_iff (l : List (String × ℤ)) :
    sortDesc l = [] ↔ l = [] := by
  cases l with
  | nil => simp [sortDesc]
  | cons x xs => simp [sortDesc, insertDesc_ne_nil]

theorem insertDesc_perm (x : String × ℤ) (l : List (String × ℤ)) :
    List.Perm (insertDesc x l) (x :: l) := by
  induction l with
  | nil => rfl
  | cons y ys ih =>
    rw [insertDesc]
    split
    · exact (ih.cons y).trans (List.Perm.swap x y ys)
    · exact List.Perm.refl _

theorem sortDesc_perm (l : List (String × ℤ)) :
    List.Perm (sortDesc l) l := by
  induction l with
  | nil => rfl
  | cons x xs ih => exact (insertDesc_perm x (sortDesc xs)).trans (ih.cons x)

theorem pairwise_insertDesc (x : String × ℤ) (l : List (String × ℤ))
    (hs : l.Pairwise claimOrder)
    (hx : ∀ y ∈ l, declIdx x.1 < declIdx y.1) :
    (insertDesc x l).Pairwise claimOrder := by
  induction l with
  | nil => simp [insertDesc]
  | cons y ys ih =>
    rw [List.pairwise_cons] at hs
    obtain ⟨hy, hys⟩ := hs
    rw [insertDesc]
    split
    · rename_i hlt
      rw [List.pairwise_cons]
      constructor
      · intro z hz
        rcases List.mem_cons.1 ((insertDesc_perm x ys).mem_iff.1 hz) with
          rfl | hz2
        · exact Or.inl hlt
        · exact hy z hz2
      · exact ih hys (fun z hz => hx z (List.mem_cons_of_mem y hz))
    · rename_i hnlt
      have hxy : y.2 ≤ x.2 := not_lt.1 hnlt
      rw [List.pairwise_cons]
      constructor
      · intro z hz
        rcases List.mem_cons.1 hz with rfl | hz2
        · rcases lt_or_eq_of_le hxy with hlt2 | heq2
          · exact Or.inl hlt2
          · exact Or.inr ⟨heq2.symm, hx z (List.mem_cons_self z ys)⟩
        · rcases hy z hz2 with hlt2 | ⟨heq2, hidx2⟩
          · exact Or.inl (lt_of_lt_of_le hlt2 hxy)
          · rcases lt_or_eq_of_le hxy with hlt3 | heq3
            · exact Or.inl (heq2 ▸ hlt3)
            · exact Or.inr ⟨heq3.symm.trans heq2,
                lt_trans (hx y (List.mem_cons_self y ys)) hidx2⟩
      · exact List.pairwise_cons.2 ⟨hy, hys⟩

theorem pairwise_sortDesc (l : List (String × ℤ))
    (hl : l.Pairwise (fun a b => declIdx a.1 < declIdx b.1)) :
    (sortDesc l).Pairwise claimOrder := by
  induction l with
  | nil => simp [sortDesc]
  | cons x xs ih =>
    rw [List.pairwise_cons] at hl
    obtain ⟨hx, hxs⟩ := hl
    exact pairwise_insertDesc x _ (ih hxs)
      (fun y hy => hx y ((sortDesc_perm xs).mem_iff.1 hy))

theorem pairwise_idx_positiveSums (rows : Dataset) :
    (positiveSums rows).Pairwise (fun a b => declIdx a.1 < declIdx b.1) := by
  have base : crimeCats.Pairwise (fun a b => declIdx a.1 < declIdx b.1) := by
    decide
  have h1 : (categorySums rows).Pairwise
      (fun a b => declIdx a.1 < declIdx b.1) := by
    rw [categorySums]
    exact base.map _ (fun a b hh => hh)
  exact h1.filter _

theorem mem_positiveSums_pos {rows : Dataset} {p : String × ℤ}
    (h : p ∈ positiveSums rows) : 0 < p.2 := by
  have := (List.mem_filter.1 h).2
  exact of_decide_eq_true this

theorem mem_positiveSums_name {rows : Dataset} {p : String × ℤ}
    (h : p ∈ positiveSums rows) : p.1 ∈ catNames := by
  have h1 := (List.mem_filter.1 h).1
  rw [categorySums] at h1
  obtain ⟨c, hc, hcp⟩ := List.mem_map.1 h1
  rw [catNames]
  exact hcp ▸ List.mem_map.2 ⟨c, hc, rfl⟩

theorem positiveSums_nil : positiveSums [] = [] := by decide

theorem regionTotal_nonneg (d : Dataset) (s : String)
    (h : ∀ r ∈ d, 0 ≤ r.totalIpcCrimes) : 0 ≤ regionTotal d s := by
  apply List.sum_nonneg
  intro x hx
  obtain ⟨r, hr, hrx⟩ := List.mem_map.1 hx
  exact hrx ▸ h r (List.mem_of_mem_filter hr)

theorem grandTotal_nonneg (d : Dataset)
    (h : ∀ r ∈ d, 0 ≤ r.totalIpcCrimes) : 0 ≤ grandTotal d := by
  apply List.sum_nonneg
  intro x hx
  obtain ⟨r, hr, hrx⟩ := List.mem_map.1 hx
  exact hrx ▸ h r hr

theorem regionTotal_le_grandTotal (d : Dataset) (s : String)
    (h : ∀ r ∈ d, 0 ≤ r.totalIpcCrimes) :
    regionTotal d s ≤ grandTotal d := by
  induction d with
  | nil => simp [regionTotal, grandTotal]
  | cons a l ih =>
    have ha := h a (List.mem_cons_self a l)
    have hl : ∀ r ∈ l, 0 ≤ r.totalIpcCrimes :=
      fun r hr => h r (List.mem_cons_of_mem a hr)
    rw [regionTotal, grandTotal, List.filter_cons] at *
    split
    · simp only [List.map_cons, List.sum_cons]
      exact add_le_add_left (ih hl) _
    · simp only [List.map_cons, List.sum_cons]
      calc ((l.filter (fun r => r.stateUT == s)).map Row.totalIpcCrimes).sum
          ≤ (l.map Row.totalIpcCrimes).sum := ih hl
        _ ≤ a.totalIpcCrimes + (l.map Row.totalIpcCrimes).sum := by linarith

theorem predict_linHist : predict_future linHist "X" 5 =
    .ok [(2013, 400), (2014, 500), (2015, 600), (2016, 700), (2017, 800)] := by
  have hyd : yearly_data linHist "X" =
      [(2010, 100), (2011, 200), (2012, 300)] := by decide
  have hlast : lastObservedYear linHist "X" = 2012 := by decide
  have hfit : fitLine [((2010 : ℤ), (100 : ℤ)), (2011, 200), (2012, 300)] =
      (100, -200900) := by
    simp [fitLine]; norm_num
  simp only [predict_future, lineAt, hyd, hlast, hfit]
  norm_num [List.range_succ, ratTrunc]

theorem predict_decHist : predict_future decHist "X" 5 =
    .ok [(2012, -100), (2013, -200), (2014, -300), (2015, -400), (2016, -500)] := by
  have hyd : yearly_data decHist "X" = [(2010, 100), (2011, 0)] := by decide
  have hlast : lastObservedYear decHist "X" = 2010 + 1 := by decide
  have hfit : fitLine [((2010 : ℤ), (100 : ℤ)), (2011, 0)] =
      (-100, 201100) := by
    simp [fitLine]; norm_num
  simp only [predict_future, lineAt, hlast, hyd, hfit]
  norm_num [List.range_succ, ratTrunc]
  repeat' apply And.intro
  all_goals norm_cast

/-! ## Claim theorems -/

/-- C1, counterexample: on the empty dataset the grand total is zero yet
`calculate_safety_ratio` returns 0, not 100; and on a dataset whose region
"X" has no crime, the function returns 100 although the grand total is
nonzero — so the ratio is 100 neither exactly when nor always when the
grand total is zero. -/
theorem safetyRatio_claim_false :
    calculate_safety_ratio [] "X" = 0 ∧ grandTotal ([] : Dataset) = 0 ∧
      ((0 : ℚ) ≠ 100) ∧
      calculate_safety_ratio [simpleRow "Y" 2013 10] "X" = 100 ∧
      grandTotal [simpleRow "Y" 2013 10] ≠ 0 := by
  refine ⟨rfl, rfl, by norm_num, ?_, by decide⟩
  have hgt : grandTotal [simpleRow "Y" 2013 10] = 10 := by decide
  have hrt : regionTotal [simpleRow "Y" 2013 10] "X" = 0 := by decide
  rw [calculate_safety_ratio, if_neg (by decide), if_neg (by decide), hrt, hgt]
  norm_num

/-- C1, amended: for every dataset satisfying the data-model invariant that
the TOTAL field is non-negative, `calculate_safety_ratio` lies in [0, 100];
it equals 100 exactly when the dataset is nonempty and the selected
region's total is zero (in particular whenever the grand total is zero and
the dataset is nonempty); on the empty dataset it returns 0. -/
theorem safetyRatio_amended (d : Dataset) (s : String)
    (h : ∀ r ∈ d, 0 ≤ r.totalIpcCrimes) :
    0 ≤ calculate_safety_ratio d s ∧ calculate_safety_ratio d s ≤ 100 ∧
      (calculate_safety_ratio d s = 100 ↔ d ≠ [] ∧ regionTotal d s = 0) ∧
      (d = [] → calculate_safety_ratio d s = 0) := by
  by_cases hd : d = []
  · subst hd
    have h0 : calculate_safety_ratio [] s = 0 := rfl
    rw [h0]
    refine ⟨le_refl 0, by norm_num, by norm_num, fun _ => rfl⟩
  · have hrt := regionTotal_nonneg d s h
    have hgt := grandTotal_nonneg d h
    have hle := regionTotal_le_grandTotal d s h
    by_cases hg : grandTotal d = 0
    · have hr0 : regionTotal d s = 0 := le_antisymm (hg ▸ hle) hrt
      rw [calculate_safety_ratio, if_neg hd, if_pos hg]
      exact ⟨by norm_num, le_refl 100, by simp [hd, hr0],
        fun hc => absurd hc hd⟩
    · have hgpos : (0 : ℚ) < (grandTotal d : ℚ) := by
        have : 0 < grandTotal d := lt_of_le_of_ne hgt (Ne.symm hg)
        exact_mod_cast this
      have hq0 : 0 ≤ (regionTotal d s : ℚ) / (grandTotal d : ℚ) :=
        div_nonneg (by exact_mod_cast hrt) hgpos.le
      have hq1 : (regionTotal d s : ℚ) / (grandTotal d : ℚ) ≤ 1 := by
        rw [div_le_one hgpos]
        exact_mod_cast hle
      rw [calculate_safety_ratio, if_neg hd, if_neg hg]
      refine ⟨by nlinarith, by nlinarith, ?_, fun hc => absurd hc hd⟩
      constructor
      · intro he
        refine ⟨hd, ?_⟩
        have hz : (regionTotal d s : ℚ) / (grandTotal d : ℚ) = 0 := by
          linarith
        rcases div_eq_zero_iff.1 hz with hz2 | hz2
        · exact_mod_cast hz2
        · exact absurd hz2 (ne_of_gt hgpos)
      · rintro ⟨-, hr0⟩
        rw [hr0]
        norm_num

/-- C1, witness for the amended theorem at a concrete dataset. -/
theorem safetyRatio_amended_witness :
    0 ≤ calculate_safety_ratio [simpleRow "Y" 2013 10] "X" ∧
      calculate_safety_ratio [simpleRow "Y" 2013 10] "X" ≤ 100 ∧
      (calculate_safety_ratio [simpleRow "Y" 2013 10] "X" = 100 ↔
        [simpleRow "Y" 2013 10] ≠ [] ∧
          regionTotal [simpleRow "Y" 2013 10] "X" = 0) ∧
      ([simpleRow "Y" 2013 10] = [] →
        calculate_safety_ratio [simpleRow "Y" 2013 10] "X" = 0) :=
  safetyRatio_amended [simpleRow "Y" 2013 10] "X" (by decide)

/-- C2, counterexample: for the two-year decreasing history the fitted line
is negative at every predicted year, and the page emits the negative
truncations unchanged — predicted counts are not clamped at zero. -/
theorem predictions_claim_false :
    predict_future decHist "X" 5 =
        .ok [(2012, -100), (2013, -200), (2014, -300), (2015, -400),
          (2016, -500)] ∧
      ((-100 : ℤ) < 0) :=
  ⟨predict_decHist, by norm_num⟩

/-- C2, amended: every predicted count is the integer truncation (toward
zero) of the fitted least-squares line at that year — within distance 1 of
the line's value, and negative exactly when the line's value is at most
−1; negative predictions are not clamped to 0. -/
theorem predictions_truncated (d : Dataset) (s : String) (horizon : ℕ)
    (l : List (ℤ × ℤ)) (h : predict_future d s horizon = .ok l) :
    ∀ yr p, (yr, p) ∈ l →
      |(p : ℚ) - lineAt d s yr| < 1 ∧ (p < 0 ↔ lineAt d s yr ≤ -1) := by
  intro yr p hm
  rw [predict_future] at h
  split at h
  · cases h
  · injection h with hh
    subst hh
    obtain ⟨i, _, hip⟩ := List.mem_map.1 hm
    cases hip
    exact ratTrunc_spec (lineAt d s (lastObservedYear d s + 1 + (i : ℤ)))

/-- C2, witness for the amended theorem at the linear example dataset. -/
theorem predictions_truncated_witness :
    |(((400 : ℤ)) : ℚ) - lineAt linHist "X" 2013| < 1 ∧
      ((400 : ℤ) < 0 ↔ lineAt linHist "X" 2013 ≤ -1) :=
  predictions_truncated linHist "X" 5 _ predict_linHist 2013 400 (by decide)

/-- C3, counterexample: a region with no matching rows yields the empty
composition, not the single-entry sentinel. -/
theorem composition_claim_false :
    stateRows [simpleRow "Y" 2013 10] "X" = [] ∧
      get_top_crime_composition [simpleRow "Y" 2013 10] "X" 5 = [] := by
  decide

/-- C3, amended: when the region has matching rows but no crime-category
sum over them is positive, `get_top_crime_composition` returns the
single-entry "NO MAJOR CRIMES REPORTED" sentinel; when the region has no
matching rows it returns the empty result instead. -/
theorem composition_empty_vs_sentinel (d : Dataset) (s : String) (n : ℕ) :
    (stateRows d s = [] → get_top_crime_composition d s n = []) ∧
      (stateRows d s ≠ [] → positiveSums (stateRows d s) = [] →
        get_top_crime_composition d s n =
          [("NO MAJOR CRIMES REPORTED", 1)]) := by
  constructor
  · intro hr
    simp [get_top_crime_composition, hr]
  · intro hr hp
    simp [get_top_crime_composition, hr, hp, sortDesc]

/-- C3, witness: a region whose only row has all category counts zero gets
the sentinel. -/
theorem composition_empty_vs_sentinel_witness :
    get_top_crime_composition [simpleRow "X" 2013 0] "X" 5 =
      [("NO MAJOR CRIMES REPORTED", 1)] :=
  (composition_empty_vs_sentinel [simpleRow "X" 2013 0] "X" 5).2
    (by decide) (by decide)

/-- C5: the prediction fails with the insufficient-history signal exactly
when the region has fewer than two distinct historical years after
grouping by year. -/
theorem predict_insufficient_iff (d : Dataset) (s : String) (horizon : ℕ) :
    predict_future d s horizon = .error .insufficientHistory ↔
      (distinctYears d s).length < 2 := by
  rw [predict_future]
  by_cases hc : (yearly_data d s).length < 2
  · rw [if_pos hc]
    exact iff_of_true rfl (yearly_data_length d s ▸ hc)
  · rw [if_neg hc]
    exact iff_of_false (by simp)
      (fun hh => hc (by rw [yearly_data_length]; exact hh))

/-- C6: every call of `load_data` raises `NameError` to its caller: the
identifier `_file_` in `os.path.dirname(_file_)` is unbound and the
`except FileNotFoundError` clause does not catch `NameError`, so the
function neither reports the missing file nor returns the empty dataset. -/
theorem load_data_raises_nameError (src : Option (List RawRow)) :
    load_data src = .error .nameError := rfl

/-- C7: `register_user` fails with the empty-field error when either
argument is blank and with the duplicate-username error when the username
is already stored, leaving the store unchanged in both cases; otherwise it
inserts the pair and succeeds; against the seeded store, registering
"judge" fails as duplicate and authenticating "judge"/"hackathon2024"
succeeds. -/
theorem register_authenticate_spec (u p : String)
    (creds : List (String × String)) :
    ((u = "" ∨ p = "") →
        register_user u p creds = (.error .emptyField, creds)) ∧
      (u ≠ "" → p ≠ "" → (creds.lookup u).isSome →
        register_user u p creds = (.error .duplicateUsername, creds)) ∧
      (u ≠ "" → p ≠ "" → ¬(creds.lookup u).isSome →
        register_user u p creds = (.ok (), creds ++ [(u, p)])) ∧
      register_user "judge" "x" USER_CREDENTIALS =
        (.error .duplicateUsername, USER_CREDENTIALS) ∧
      authenticate_user "judge" "hackathon2024" USER_CREDENTIALS = true := by
  refine ⟨?_, ?_, ?_, rfl, rfl⟩
  · intro hep
    rw [register_user, if_pos hep]
  · intro hu hp hsome
    rw [register_user, if_neg (not_or.2 ⟨hu, hp⟩), if_pos hsome]
  · intro hu hp hnone
    rw [register_user, if_neg (not_or.2 ⟨hu, hp⟩), if_neg hnone]

/-- C7, witness: the blank-username registration fails with the
empty-field error against the seeded store. -/
theorem register_authenticate_spec_witness :
    register_user "" "pw" USER_CREDENTIALS =
      (.error .emptyField, USER_CREDENTIALS) :=
  (register_authenticate_spec "" "pw" USER_CREDENTIALS).1 (Or.inl rfl)

/-- C9: on the linear example (region "X", 2010 → 100, 2011 → 200,
2012 → 300) the page predicts 400 for 2013 and 500 for 2014 (and the
continuation of the line for the remaining horizon), and in general the
predicted years of any successful prediction are exactly the consecutive
integers following the last observed year. -/
theorem predict_linear_example :
    predict_future linHist "X" 5 =
        .ok [(2013, 400), (2014, 500), (2015, 600), (2016, 700),
          (2017, 800)] ∧
      ∀ (d : Dataset) (s : String) (hz : ℕ) (l : List (ℤ × ℤ)),
        predict_future d s hz = .ok l →
          l.map Prod.fst =
            (List.range hz).map
              (fun i => lastObservedYear d s + 1 + (i : ℤ)) := by
  refine ⟨predict_linHist, ?_⟩
  intro d s hz l hok
  rw [predict_future] at hok
  split at hok
  · cases hok
  · injection hok with hh
    subst hh
    rw [List.map_map]
    rfl

/-- C9, witness: the general predicted-years property instantiated at the
linear example. -/
theorem predict_linear_example_witness :
    [((2013 : ℤ), (400 : ℤ)), (2014, 500), (2015, 600), (2016, 700),
        (2017, 800)].map Prod.fst =
      (List.range 5).map
        (fun i => lastObservedYear linHist "X" + 1 + (i : ℤ)) :=
  predict_linear_example.2 linHist "X" 5 _ predict_linear_example.1

/-- C10: every row of a cleaned dataset has its State/UT among the 35
allow-listed names and a district different from the literal "TOTAL"; the
two restrictions are applied on every successful load. -/
theorem load_allowlist_invariant (raw : List RawRow) (r : Row)
    (h : r ∈ clean_data raw) :
    r.stateUT ∈ known_states_uts ∧ r.district ≠ "TOTAL" := by
  rw [clean_data] at h
  obtain ⟨h1, hdist⟩ := List.mem_filter.1 h
  obtain ⟨_, hstate⟩ := List.mem_filter.1 h1
  constructor
  · simpa using hstate
  · simpa using hdist

/-- Structure of the composition in the non-degenerate case: sorted
positive sums, the first `top_n` of them, and the conditional OTHER
bucket. -/
theorem composition_eq (d : Dataset) (s : String) (n : ℕ)
    (hr : stateRows d s ≠ []) (hp : positiveSums (stateRows d s) ≠ []) :
    get_top_crime_composition d s n =
      (if 0 < (((sortDesc (positiveSums (stateRows d s))).drop n).map
          Prod.snd).sum
       then (sortDesc (positiveSums (stateRows d s))).take n ++
         [("OTHER IPC CRIMES",
           (((sortDesc (positiveSums (stateRows d s))).drop n).map
             Prod.snd).sum)]
       else (sortDesc (positiveSums (stateRows d s))).take n) := by
  have hs : sortDesc (positiveSums (stateRows d s)) ≠ [] := by
    rw [Ne, sortDesc_eq_nil_iff]
    exact hp
  simp only [get_top_crime_composition, if_neg hr, if_neg hs]

/-- C4: the composition entries other than the OTHER bucket are pairwise in
strictly-decreasing count order with ties in category declaration order;
the composition either has no OTHER bucket or ends with one whose count is
the total of all positive category sums minus the sum of the top entries,
and the bucket is absent exactly when that remainder is zero. -/
theorem composition_sorted_and_other (d : Dataset) (s : String) (n : ℕ)
    (h : positiveSums (stateRows d s) ≠ []) :
    (compMain d s n).Pairwise claimOrder ∧
      (get_top_crime_composition d s n = compMain d s n ∨
        get_top_crime_composition d s n =
          compMain d s n ++
            [("OTHER IPC CRIMES",
              totalPositive d s - ((compMain d s n).map Prod.snd).sum)]) ∧
      (get_top_crime_composition d s n = compMain d s n ↔
        ((compMain d s n).map Prod.snd).sum = totalPositive d s) := by
  have hrows : stateRows d s ≠ [] := by
    intro hc
    apply h
    rw [hc, positiveSums_nil]
  set sums := sortDesc (positiveSums (stateRows d s)) with hsums_def
  set top := sums.take n with htop_def
  set os := ((sums.drop n).map Prod.snd).sum with hos_def
  have hperm : List.Perm sums (positiveSums (stateRows d s)) :=
    sortDesc_perm _
  have hc := composition_eq d s n hrows h
  have htopname : ∀ q ∈ top, (q.1 != "OTHER IPC CRIMES") = true := by
    intro q hq
    have hcat := mem_positiveSums_name
      (hperm.mem_iff.1 ((List.take_subset n sums) hq))
    have hne : q.1 ≠ "OTHER IPC CRIMES" := by
      intro he
      rw [he] at hcat
      revert hcat
      decide
    simpa using hne
  have hsum : totalPositive d s = (top.map Prod.snd).sum + os := by
    rw [totalPositive, ← (hperm.map Prod.snd).sum_eq, htop_def, hos_def,
      ← List.sum_append, ← List.map_append, List.take_append_drop]
  have hos_nonneg : 0 ≤ os := by
    rw [hos_def]
    apply List.sum_nonneg
    intro x hx
    obtain ⟨q, hq, hqx⟩ := List.mem_map.1 hx
    have hqpos := mem_positiveSums_pos
      (hperm.mem_iff.1 ((List.drop_subset n sums) hq))
    exact hqx ▸ le_of_lt hqpos
  have hmain : compMain d s n = top := by
    rw [compMain, hc]
    by_cases hpos : 0 < os
    · rw [if_pos hpos, List.filter_append,
        List.filter_eq_self.2 htopname]
      simp
    · rw [if_neg hpos]
      exact List.filter_eq_self.2 htopname
  rw [hmain]
  refine ⟨?_, ?_, ?_⟩
  · exact (pairwise_sortDesc _
      (pairwise_idx_positiveSums (stateRows d s))).sublist
      (List.take_sublist n sums)
  · by_cases hpos : 0 < os
    · right
      have he : totalPositive d s - (top.map Prod.snd).sum = os := by
        rw [hsum]
        ring
      rw [hc, if_pos hpos, he]
    · left
      rw [hc, if_neg hpos]
  · by_cases hpos : 0 < os
    · constructor
      · intro he
        rw [hc, if_pos hpos] at he
        have hlen := congrArg List.length he
        rw [htop_def, ← hsums_def] at hlen
        simp only [List.length_append, List.length_take, List.length_cons,
          List.length_nil] at hlen
        omega
      · intro he
        exfalso
        rw [he] at hsum
        omega
    · have hos0 : os = 0 := le_antisymm (not_lt.1 hpos) hos_nonneg
      constructor
      · intro _
        rw [hsum, hos0, add_zero]
      · intro _
        rw [hc, if_neg hpos]

/-- C4, witness: the spec's own worked example — region "X" with MURDER 10,
THEFT 50, ARSON 5 and `topN = 2` — instantiating the theorem. -/
theorem composition_sorted_and_other_witness :
    (compMain [compRow] "X" 2).Pairwise claimOrder ∧
      (get_top_crime_composition [compRow] "X" 2 = compMain [compRow] "X" 2 ∨
        get_top_crime_composition [compRow] "X" 2 =
          compMain [compRow] "X" 2 ++
            [("OTHER IPC CRIMES",
              totalPositive [compRow] "X" -
                ((compMain [compRow] "X" 2).map Prod.snd).sum)]) ∧
      (get_top_crime_composition [compRow] "X" 2 =
          compMain [compRow] "X" 2 ↔
        ((compMain [compRow] "X" 2).map Prod.snd).sum =
          totalPositive [compRow] "X") :=
  composition_sorted_and_other [compRow] "X" 2 (by decide)

/-- The chained optional filters of `filter_state_district` coincide with a
single conjunctive filter in which a provided empty-string district is
treated as omitted. -/
theorem filter_state_district_eq (data : Dataset) (st di : Option String)
    (yr : Option ℤ) :
    filter_state_district data st di yr =
      data.filter (fun r =>
        (match yr with | some y => r.year == y | none => true) &&
        (match st with | some s2 => r.stateUT == s2 | none => true) &&
        (match di with
          | some dd => dd == "" || r.district == dd
          | none => true)) := by
  by_cases hd : data = []
  · subst hd
    simp [filter_state_district]
  · rcases yr with _ | y <;> rcases st with _ | s2 <;>
      rcases di with _ | dd <;>
      simp only [filter_state_district, if_neg hd]
    · simp
    · by_cases hdd : dd = ""
      · subst hdd
        simp
      · have hb : (dd == "") = false := beq_eq_false_iff_ne.2 hdd
        rw [if_neg hdd]
        simp [hb]
    · simp
    · by_cases hdd : dd = ""
      · subst hdd
        simp
      · have hb : (dd == "") = false := beq_eq_false_iff_ne.2 hdd
        rw [if_neg hdd, List.filter_filter]
        apply List.filter_congr
        intro r _
        cases r.stateUT == s2 <;> cases r.district == dd <;> simp [hb]
    · simp
    · by_cases hdd : dd = ""
      · subst hdd
        simp
      · have hb : (dd == "") = false := beq_eq_false_iff_ne.2 hdd
        rw [if_neg hdd, List.filter_filter]
        apply List.filter_congr
        intro r _
        cases r.year == y <;> cases r.district == dd <;> simp [hb]
    · rw [List.filter_filter]
      apply List.filter_congr
      intro r _
      cases r.year == y <;> cases r.stateUT == s2 <;> simp
    · by_cases hdd : dd = ""
      · subst hdd
        rw [List.filter_filter]
        apply List.filter_congr
        intro r _
        cases r.year == y <;> cases r.stateUT == s2 <;> simp
      · have hb : (dd == "") = false := beq_eq_false_iff_ne.2 hdd
        rw [if_neg hdd, List.filter_filter, List.filter_filter]
        apply List.filter_congr
        intro r _
        cases r.year == y <;> cases r.stateUT == s2 <;>
          cases r.district == dd <;> simp [hb]

/-- C8, counterexample: providing the empty string as district is not an
exact-match predicate — the row with district "A" passes through even
though "A" differs from the provided "", so the claimed independent
exact-match AND semantics fails. -/
theorem filterRows_claim_false :
    filter_state_district [rowA] none (some "") none = [rowA] ∧
      specFilterRows [rowA] none (some "") none = [] ∧
      rowA.district ≠ "" := by
  refine ⟨rfl, rfl, ?_⟩
  decide

/-- C8, amended: `filter_state_district` is idempotent, and it equals the
conjunction of independent exact-match predicates where an omitted filter
— including a provided district equal to the empty string, which the code
treats as omitted — passes all rows. -/
theorem filterRows_idempotent_and (data : Dataset) (st di : Option String)
    (yr : Option ℤ) :
    filter_state_district (filter_state_district data st di yr) st di yr =
        filter_state_district data st di yr ∧
      filter_state_district data st di yr =
        data.filter (fun r =>
          (match yr with | some y => r.year == y | none => true) &&
          (match st with | some s2 => r.stateUT == s2 | none => true) &&
          (match di with
            | some dd => dd == "" || r.district == dd
            | none => true)) := by
  refine ⟨?_, filter_state_district_eq data st di yr⟩
  simp only [filter_state_district_eq, List.filter_filter]
  apply List.filter_congr
  intro r _
  rw [Bool.and_self]

/-- C10, witness: the cleaned Delhi row is kept and satisfies both
restrictions. -/
theorem load_allowlist_invariant_witness :
    (cleanRow rawDelhi).stateUT ∈ known_states_uts ∧
      (cleanRow rawDelhi).district ≠ "TOTAL" :=
  load_allowlist_invariant [rawDelhi] (cleanRow rawDelhi) (by decide)

